import Mathlib

/-!
Verification of the ddragon client (src/client.rs and
src/models/summoner_spells.rs): a typed client for a versioned static-data
API with an optional cache-aside layer.

The embedding models the pure control flow of the Rust code.  External
effects (the HTTP transport, the on-disk cache store, serde decoding into a
target type) are passed in as explicit functions, so that each run of
`get_data` is a pure function of the client state, the cache store contents,
the transport behaviour and the decoder.
-/

/-- A parsed URL as the `url` crate represents the ones this client builds:
an origin (scheme plus authority, e.g. `https://host`) and a path starting
with a slash.  `as_str` prints origin followed by path. -/
structure Url where
  origin : String
  path : String
deriving DecidableEq, Repr

def Url.asStr (u : Url) : String := u.origin ++ u.path

/-- Everything up to and including the last slash of a path (the directory
part against which a relative reference is resolved). -/
def dropLastSegment (p : String) : String :=
  ⟨(p.toList.reverse.dropWhile (fun c => c ≠ '/')).reverse⟩

/-- Hierarchical-URL resolution as `url::Url::join` performs it for the
references this client uses: an absolute path replaces the base path, a
relative reference (with or without a leading `./`) resolves against the
directory of the base path. -/
def Url.join (u : Url) (ref : String) : Url :=
  match ref.toList with
  | '/' :: _ => { origin := u.origin, path := ref }
  | '.' :: '/' :: rest => { origin := u.origin, path := dropLastSegment u.path ++ ⟨rest⟩ }
  | _ => { origin := u.origin, path := dropLastSegment u.path ++ ref }

/-- The error enumeration `DDragonClientError` of src/client.rs.
`Request` covers `ureq` call failures, `Parse` covers body-read failures,
`JSONParse` covers serde decode failures. -/
inductive DDragonClientError where
  | UrlParse
  | Request
  | Parse
  | JSONParse
  | NoLatestVersion
deriving DecidableEq, Repr

/-- The client state stored by `DDragonClient` (the `agent` transport handle
is modelled as a function argument to the operations that use it). -/
structure DDragonClient where
  version : String
  base_url : Url
  cache_dir : Option String
deriving Repr

/-- Embeds `DDragonClient::create`.  The network round trip to
`/api/versions.json` and its decode into `Vec<String>` are abstracted as the
already-produced result `versionsResponse`; a transport or decode failure
during version resolution arrives here as `.error`. -/
def create (versionsResponse : Except DDragonClientError (List String))
    (cache_dir : Option String) (base_url : Url) :
    Except DDragonClientError DDragonClient :=
  match versionsResponse with
  | .error e => .error e
  | .ok version_list =>
    match version_list.get? 0 with
    | none => .error DDragonClientError.NoLatestVersion
    | some latest_version =>
      .ok { version := latest_version, base_url := base_url, cache_dir := cache_dir }

/-- Embeds `DDragonClient::get_data_url`:
`self.base_url.join("/cdn/{version}/data/en_US/")`. -/
def DDragonClient.get_data_url (c : DDragonClient) : Url :=
  c.base_url.join ("/cdn/" ++ c.version ++ "/data/en_US/")

/-- The full request URL of `get_data`:
`self.get_data_url()?.join(endpoint)?.as_str()`. -/
def request_url (c : DDragonClient) (endpoint : String) : String :=
  (c.get_data_url.join endpoint).asStr

/-- The cache store contents: key to cached bytes.  `none` covers both a
missing key and a failing read, since `cacache::read_sync` reports both as
`Err` and `get_data` treats any `Err` as a miss. -/
def Store := String → Option String

/-- A successful `cacache::write_sync` of value `v` under key `k`. -/
def Store.update (s : Store) (k v : String) : Store :=
  fun key => if key = k then some v else s key

/-- The observable outcome of one `get_data` call: the returned value or
error, the cache store contents afterwards, and whether the network
transport was invoked. -/
structure GetDataOutcome (T : Type) where
  result : Except DDragonClientError T
  store : Store
  networkCalled : Bool

/-- The cache path of `get_data` (lines 87-93 of src/client.rs): when a
cache directory is configured, read the store under the request URL and try
to decode; `none` stands for the fall-through (no cache dir, read failure,
or decode failure). -/
def cache_lookup {T : Type} (c : DDragonClient) (url : String)
    (decode : String → Option T) (store : Store) : Option T :=
  match c.cache_dir with
  | none => none
  | some _ =>
    match store url with
    | none => none
    | some data => decode data

/-- The network path of `get_data` (lines 95-103 of src/client.rs): fetch
the body, decode it, then best-effort write the raw response text to the
cache when a cache directory is configured. -/
def fetch_and_store {T : Type} (c : DDragonClient) (url : String)
    (decode : String → Option T) (store : Store)
    (fetch : String → Except DDragonClientError String)
    (writeSucceeds : Bool) : GetDataOutcome T :=
  match fetch url with
  | .error e => { result := .error e, store := store, networkCalled := true }
  | .ok response_str =>
    match decode response_str with
    | none =>
      { result := .error DDragonClientError.JSONParse, store := store, networkCalled := true }
    | some response_json =>
      match c.cache_dir with
      | none => { result := .ok response_json, store := store, networkCalled := true }
      | some _ =>
        if writeSucceeds then
          { result := .ok response_json,
            store := store.update url response_str, networkCalled := true }
        else
          { result := .ok response_json, store := store, networkCalled := true }

/-- Embeds `DDragonClient::get_data`.  `decode` is the serde decoder for the
target type `T` (used both on cached bytes, `serde_json::from_slice`, and on
the response text, `serde_json::from_str`); `fetch` is the transport
composed with the body read (`agent.get(url).call()` then `into_string()`),
returning the response text or the error; `writeSucceeds` says whether the
best-effort `cacache::write_sync` succeeds. -/
def get_data {T : Type} (c : DDragonClient) (endpoint : String)
    (decode : String → Option T) (store : Store)
    (fetch : String → Except DDragonClientError String)
    (writeSucceeds : Bool) : GetDataOutcome T :=
  match cache_lookup c (request_url c endpoint) decode store with
  | some parsed => { result := .ok parsed, store := store, networkCalled := false }
  | none => fetch_and_store c (request_url c endpoint) decode store fetch writeSucceeds

/-- The closed enumeration `CostType` of src/models/summoner_spells.rs. -/
inductive CostType where
  | Nbsp
  | NoCost
deriving DecidableEq, Repr

/-- Serde serialization of `CostType`: the `rename` attributes map `Nbsp` to
the literal `&nbsp;` and `NoCost` to `No Cost`. -/
def CostType.toWire : CostType → String
  | CostType.Nbsp => "&nbsp;"
  | CostType.NoCost => "No Cost"

/-- Serde deserialization of `CostType`: only the two renamed literals are
accepted; any other string is a decode failure. -/
def CostType.fromWire (s : String) : Option CostType :=
  if s = "&nbsp;" then some CostType.Nbsp
  else if s = "No Cost" then some CostType.NoCost
  else none

namespace summoner_spells

/-- The closed enumeration `Group` of src/models/summoner_spells.rs
(namespaced after its module, since `Group` is taken by Mathlib). -/
inductive Group where
  | Spell
deriving DecidableEq, Repr

/-- Serde serialization of `Group`. -/
def Group.toWire : Group → String
  | Group.Spell => "spell"

/-- Serde deserialization of `Group`. -/
def Group.fromWire (s : String) : Option Group :=
  if s = "spell" then some Group.Spell else none

end summoner_spells

/-- The closed enumeration `SummonerSpellSprite` of
src/models/summoner_spells.rs. -/
inductive SummonerSpellSprite where
  | Spell0Png
deriving DecidableEq, Repr

/-- Serde serialization of `SummonerSpellSprite`. -/
def SummonerSpellSprite.toWire : SummonerSpellSprite → String
  | SummonerSpellSprite.Spell0Png => "spell0.png"

/-- Serde deserialization of `SummonerSpellSprite`. -/
def SummonerSpellSprite.fromWire (s : String) : Option SummonerSpellSprite :=
  if s = "spell0.png" then some SummonerSpellSprite.Spell0Png else none

/-!  Theorems settling the claims. -/

/-- C3: for every version-list response that decodes to a list of strings
with at least one entry, `create` succeeds and the resolved version stored
in the client equals the element at index 0 of that list, for any cache
directory and base URL. -/
theorem C3_create_uses_first_version (version_list : List String)
    (h : 0 < version_list.length) (cache_dir : Option String) (base_url : Url) :
    create (.ok version_list) cache_dir base_url =
      .ok { version := version_list.get ⟨0, h⟩, base_url := base_url,
            cache_dir := cache_dir } := by
  cases version_list with
  | nil => simp at h
  | cons a t => rfl

/-- Witness for C3 at the concrete list of the repository's own test
(`result_ok_first_version_in_list`). -/
theorem C3_witness :
    0 < (["0.0.0", "1.1.1", "2.2.2"] : List String).length ∧
    create (.ok ["0.0.0", "1.1.1", "2.2.2"]) none ⟨"http://h", "/"⟩ =
      .ok { version := "0.0.0", base_url := ⟨"http://h", "/"⟩, cache_dir := none } :=
  ⟨by decide, C3_create_uses_first_version (["0.0.0", "1.1.1", "2.2.2"]) (by decide)
    none ⟨"http://h", "/"⟩⟩

/-- C4: if the version-list endpoint returns a response that decodes to an
empty list, `create` fails with `NoLatestVersion` and no client value is
produced. -/
theorem C4_empty_version_list_fails (cache_dir : Option String) (base_url : Url) :
    create (.ok []) cache_dir base_url = .error DDragonClientError.NoLatestVersion := rfl

/-- C5: for every client, `get_data_url` produces exactly
`{base}/cdn/{version}/data/en_US/` — the base URL's origin followed by the
version-scoped data root with a trailing slash and the locale fixed to
`en_US`. -/
theorem C5_get_data_url_shape (c : DDragonClient) :
    c.get_data_url.asStr =
      c.base_url.origin ++ ("/cdn/" ++ c.version ++ "/data/en_US/") := rfl

/-- C10: for every value of the closed enumerations `CostType`,
`summoner_spells.Group` and `SummonerSpellSprite`, serializing and then
deserializing yields the original variant. -/
theorem C10_enum_roundtrip :
    (∀ ct : CostType, CostType.fromWire ct.toWire = some ct) ∧
    (∀ g : summoner_spells.Group, summoner_spells.Group.fromWire g.toWire = some g) ∧
    (∀ sp : SummonerSpellSprite, SummonerSpellSprite.fromWire sp.toWire = some sp) := by
  refine ⟨fun ct => ?_, fun g => ?_, fun sp => ?_⟩
  · cases ct <;> rfl
  · cases g
    rfl
  · cases sp
    rfl

/-!  Helper lemmas about the two halves of `get_data`. -/

/-- A configured cache directory, a successful store read and a successful
decode make the cache path produce a value. -/
lemma cache_lookup_hit {T : Type} (c : DDragonClient) (dir url data : String)
    (decode : String → Option T) (store : Store) (v : T)
    (hdir : c.cache_dir = some dir) (hread : store url = some data)
    (hdecode : decode data = some v) :
    cache_lookup c url decode store = some v := by
  unfold cache_lookup
  rw [hdir, hread]
  exact hdecode

/-- If every possible cache read fails to decode (in particular if the read
itself fails), the cache path falls through. -/
lemma cache_lookup_miss {T : Type} (c : DDragonClient) (url : String)
    (decode : String → Option T) (store : Store)
    (h : ∀ data, store url = some data → decode data = none) :
    cache_lookup c url decode store = none := by
  unfold cache_lookup
  cases c.cache_dir with
  | none => rfl
  | some d =>
    cases hs : store url with
    | none => rfl
    | some data => exact h data hs

/-- Inversion of a cache hit: a value can only come out of the cache path
when a cache directory is configured, the store read succeeded and the bytes
decoded. -/
lemma cache_lookup_some_inv {T : Type} (c : DDragonClient) (url : String)
    (decode : String → Option T) (store : Store) (v : T)
    (h : cache_lookup c url decode store = some v) :
    ∃ dir bytes, c.cache_dir = some dir ∧ store url = some bytes ∧
      decode bytes = some v := by
  unfold cache_lookup at h
  cases hd : c.cache_dir with
  | none => rw [hd] at h; exact absurd h (by simp)
  | some d =>
    rw [hd] at h
    cases hs : store url with
    | none => rw [hs] at h; exact absurd h (by simp)
    | some bytes =>
      rw [hs] at h
      exact ⟨d, bytes, rfl, rfl, h⟩

/-- The network path always invokes the transport. -/
lemma fetch_and_store_networkCalled {T : Type} (c : DDragonClient) (url : String)
    (decode : String → Option T) (store : Store)
    (fetch : String → Except DDragonClientError String) (w : Bool) :
    (fetch_and_store c url decode store fetch w).networkCalled = true := by
  unfold fetch_and_store
  repeat' split
  all_goals rfl

/-- When the cache path falls through, `get_data` is exactly the network
path. -/
lemma get_data_eq_fetch_of_miss {T : Type} (c : DDragonClient) (endpoint : String)
    (decode : String → Option T) (store : Store)
    (fetch : String → Except DDragonClientError String) (w : Bool)
    (h : ∀ data, store (request_url c endpoint) = some data → decode data = none) :
    get_data c endpoint decode store fetch w =
      fetch_and_store c (request_url c endpoint) decode store fetch w := by
  unfold get_data
  rw [cache_lookup_miss c (request_url c endpoint) decode store h]

/-- Full characterization of the network path when the fetch and the decode
both succeed: the value is returned, the transport was called, and the store
gains the raw body under the request URL exactly when a cache directory is
configured and the write succeeds. -/
lemma fetch_and_store_success {T : Type} (c : DDragonClient) (url body : String)
    (v : T) (decode : String → Option T) (store : Store)
    (fetch : String → Except DDragonClientError String) (w : Bool)
    (hfetch : fetch url = .ok body) (hdecode : decode body = some v) :
    fetch_and_store c url decode store fetch w =
      { result := .ok v,
        store :=
          match c.cache_dir, w with
          | some _, true => store.update url body
          | _, _ => store,
        networkCalled := true } := by
  unfold fetch_and_store
  split
  next e heq => rw [hfetch] at heq; cases heq
  next response_str heq =>
    rw [hfetch] at heq
    injection heq with hbody
    subst hbody
    split
    next heq2 => rw [hdecode] at heq2; cases heq2
    next response_json heq2 =>
      rw [hdecode] at heq2
      injection heq2 with hv
      subst hv
      cases c.cache_dir with
      | none => rfl
      | some d => cases w <;> rfl

/-- The network path surfaces a decode failure as `JSONParse` and leaves the
store untouched. -/
lemma fetch_and_store_decode_failure {T : Type} (c : DDragonClient)
    (url body : String) (decode : String → Option T) (store : Store)
    (fetch : String → Except DDragonClientError String) (w : Bool)
    (hfetch : fetch url = .ok body) (hdecode : decode body = none) :
    fetch_and_store c url decode store fetch w =
      { result := .error DDragonClientError.JSONParse, store := store,
        networkCalled := true } := by
  unfold fetch_and_store
  split
  next e heq => rw [hfetch] at heq; cases heq
  next response_str heq =>
    rw [hfetch] at heq
    injection heq with hbody
    subst hbody
    split
    next => rfl
    next response_json heq2 => rw [hdecode] at heq2; cases heq2

/-- C1: with a cache directory configured, if the store holds bytes under
the full request URL and they decode into the target type, `get_data`
returns the decoded value without calling the transport; and this cache hit
is the only way any `get_data` call can succeed without the transport being
called. -/
theorem C1_cache_hit_no_network {T : Type} (c : DDragonClient)
    (dir endpoint data : String) (v : T) (decode : String → Option T)
    (store : Store) (fetch : String → Except DDragonClientError String)
    (writeSucceeds : Bool)
    (hdir : c.cache_dir = some dir)
    (hread : store (request_url c endpoint) = some data)
    (hdecode : decode data = some v) :
    get_data c endpoint decode store fetch writeSucceeds =
      { result := .ok v, store := store, networkCalled := false } ∧
    ∀ {T2 : Type} (c2 : DDragonClient) (endpoint2 : String)
      (decode2 : String → Option T2) (store2 : Store)
      (fetch2 : String → Except DDragonClientError String) (w2 : Bool) (v2 : T2),
      (get_data c2 endpoint2 decode2 store2 fetch2 w2).result = .ok v2 →
      (get_data c2 endpoint2 decode2 store2 fetch2 w2).networkCalled = false →
      ∃ dir2 bytes, c2.cache_dir = some dir2 ∧
        store2 (request_url c2 endpoint2) = some bytes ∧
        decode2 bytes = some v2 := by
  constructor
  · unfold get_data
    rw [cache_lookup_hit c dir (request_url c endpoint) data decode store v hdir
      hread hdecode]
  · intro T2 c2 endpoint2 decode2 store2 fetch2 w2 v2 hok hnet
    unfold get_data at hok hnet
    cases hcl : cache_lookup c2 (request_url c2 endpoint2) decode2 store2 with
    | none =>
      rw [hcl] at hnet
      have hnet2 :
          (fetch_and_store c2 (request_url c2 endpoint2) decode2 store2 fetch2
            w2).networkCalled = false := hnet
      rw [fetch_and_store_networkCalled c2 (request_url c2 endpoint2) decode2 store2
        fetch2 w2] at hnet2
      cases hnet2
    | some parsed =>
      rw [hcl] at hok
      have hok2 : (Except.ok parsed : Except DDragonClientError T2) =
          Except.ok v2 := hok
      injection hok2 with hparsed
      subst hparsed
      exact cache_lookup_some_inv c2 (request_url c2 endpoint2) decode2 store2
        parsed hcl

/-!  Concrete fixtures for the witnesses. -/

/-- A client with a cache directory, as built against version 14.1.1. -/
def clientW : DDragonClient :=
  { version := "14.1.1", base_url := ⟨"http://h", "/"⟩, cache_dir := some ("cachedir") }

/-- The request URL the fixtures use. -/
def urlW : String := "http://h/cdn/14.1.1/data/en_US/champion.json"

/-- A toy decoder standing for serde: only the body `7` decodes. -/
def decodeW : String → Option Nat := fun s => if s = "7" then some 7 else none

/-- A store holding a decodable entry under `urlW`. -/
def storeW : Store := fun key => if key = urlW then some ("7") else none

/-- An empty store: every read misses. -/
def storeEmptyW : Store := fun _ => none

/-- A transport always answering with the decodable body `7`. -/
def fetchW : String → Except DDragonClientError String := fun _ => .ok ("7")

/-- Witness for C1: the concrete cache hit returns 7 without the network. -/
theorem C1_witness :
    clientW.cache_dir = some ("cachedir") ∧
    storeW (request_url clientW ("./champion.json")) = some ("7") ∧
    decodeW ("7") = some 7 ∧
    get_data clientW ("./champion.json") decodeW storeW fetchW true =
      { result := .ok 7, store := storeW, networkCalled := false } :=
  ⟨rfl, by decide, by decide,
   (C1_cache_hit_no_network clientW ("cachedir") ("./champion.json") ("7") 7 decodeW
      storeW fetchW true rfl (by decide) (by decide)).1⟩

/-- The cache path is skipped entirely when no cache directory is
configured. -/
lemma cache_lookup_no_dir {T : Type} (c : DDragonClient) (url : String)
    (decode : String → Option T) (store : Store) (h : c.cache_dir = none) :
    cache_lookup c url decode store = none := by
  unfold cache_lookup
  rw [h]

/-- With no cache directory, `get_data` is exactly the network path. -/
lemma get_data_eq_fetch_no_dir {T : Type} (c : DDragonClient) (endpoint : String)
    (decode : String → Option T) (store : Store)
    (fetch : String → Except DDragonClientError String) (w : Bool)
    (h : c.cache_dir = none) :
    get_data c endpoint decode store fetch w =
      fetch_and_store c (request_url c endpoint) decode store fetch w := by
  unfold get_data
  rw [cache_lookup_no_dir c (request_url c endpoint) decode store h]

/-- Whenever the network path returns an error, the store is unchanged. -/
lemma fetch_and_store_error_store {T : Type} (c : DDragonClient) (url : String)
    (decode : String → Option T) (store : Store)
    (fetch : String → Except DDragonClientError String) (w : Bool)
    (e : DDragonClientError)
    (h : (fetch_and_store c url decode store fetch w).result = .error e) :
    (fetch_and_store c url decode store fetch w).store = store := by
  revert h
  unfold fetch_and_store
  split
  · exact fun _ => rfl
  · split
    · exact fun _ => rfl
    · split
      · exact fun h => nomatch h
      · split
        · exact fun h => nomatch h
        · exact fun h => nomatch h

/-- C2: with a cache directory configured, a cache-path failure (read miss
or failure, or undecodable cached bytes) is never surfaced: the call falls
through to the network fetch, and when that fetch and its decode succeed the
call succeeds. -/
theorem C2_cache_failure_falls_through {T : Type} (c : DDragonClient)
    (dir endpoint body : String) (v : T) (decode : String → Option T)
    (store : Store) (fetch : String → Except DDragonClientError String) (w : Bool)
    (_hdir : c.cache_dir = some dir)
    (hmiss : ∀ data, store (request_url c endpoint) = some data → decode data = none)
    (hfetch : fetch (request_url c endpoint) = .ok body)
    (hdecode : decode body = some v) :
    (get_data c endpoint decode store fetch w).result = .ok v ∧
    (get_data c endpoint decode store fetch w).networkCalled = true := by
  rw [get_data_eq_fetch_of_miss c endpoint decode store fetch w hmiss,
    fetch_and_store_success c (request_url c endpoint) body v decode store fetch w
      hfetch hdecode]
  exact ⟨rfl, rfl⟩

/-- Witness for C2: with an empty cache the concrete call succeeds through
the network. -/
theorem C2_witness :
    clientW.cache_dir = some ("cachedir") ∧
    storeEmptyW (request_url clientW ("./champion.json")) = none ∧
    fetchW (request_url clientW ("./champion.json")) = .ok ("7") ∧
    decodeW ("7") = some 7 ∧
    (get_data clientW ("./champion.json") decodeW storeEmptyW fetchW true).result =
      .ok 7 ∧
    (get_data clientW ("./champion.json") decodeW storeEmptyW fetchW
      true).networkCalled = true := by
  refine ⟨rfl, rfl, rfl, by decide, ?_, ?_⟩
  · exact (C2_cache_failure_falls_through clientW ("cachedir") ("./champion.json")
      ("7") 7 decodeW storeEmptyW fetchW true rfl (fun _ h => nomatch h) rfl
      (by decide)).1
  · exact (C2_cache_failure_falls_through clientW ("cachedir") ("./champion.json")
      ("7") 7 decodeW storeEmptyW fetchW true rfl (fun _ h => nomatch h) rfl
      (by decide)).2

/-- C6: a network body that fails to decode into the target type (for
example, well-formed JSON missing a required field) surfaces `JSONParse` to
the caller, and any string outside the closed set of `CostType` fails to
decode. -/
theorem C6_decode_failure_surfaced {T : Type} (c : DDragonClient)
    (endpoint body s : String) (decode : String → Option T) (store : Store)
    (fetch : String → Except DDragonClientError String) (w : Bool)
    (hmiss : ∀ data, store (request_url c endpoint) = some data → decode data = none)
    (hfetch : fetch (request_url c endpoint) = .ok body)
    (hdecode : decode body = none)
    (hs1 : s ≠ "&nbsp;") (hs2 : s ≠ "No Cost") :
    (get_data c endpoint decode store fetch w).result =
      .error DDragonClientError.JSONParse ∧
    CostType.fromWire s = none := by
  constructor
  · rw [get_data_eq_fetch_of_miss c endpoint decode store fetch w hmiss,
      fetch_and_store_decode_failure c (request_url c endpoint) body decode store
        fetch w hfetch hdecode]
  · unfold CostType.fromWire
    rw [if_neg hs1, if_neg hs2]

/-- A transport answering with a body the fixture decoder rejects. -/
def fetchBadW : String → Except DDragonClientError String := fun _ => .ok ("9")

/-- Witness for C6: the undecodable body `9` surfaces `JSONParse`, and the
out-of-enum string `mana` fails to decode as a `CostType`. -/
theorem C6_witness :
    fetchBadW (request_url clientW ("./champion.json")) = .ok ("9") ∧
    decodeW ("9") = none ∧
    ("mana" : String) ≠ "&nbsp;" ∧
    ("mana" : String) ≠ "No Cost" ∧
    (get_data clientW ("./champion.json") decodeW storeEmptyW fetchBadW
      true).result = .error DDragonClientError.JSONParse ∧
    CostType.fromWire ("mana") = none := by
  refine ⟨rfl, by decide, by decide, by decide, ?_, ?_⟩
  · exact (C6_decode_failure_surfaced clientW ("./champion.json") ("9") ("mana")
      decodeW storeEmptyW fetchBadW true (fun _ h => nomatch h) rfl (by decide)
      (by decide) (by decide)).1
  · exact (C6_decode_failure_surfaced clientW ("./champion.json") ("9") ("mana")
      decodeW storeEmptyW fetchBadW true (fun _ h => nomatch h) rfl (by decide)
      (by decide) (by decide)).2

/-- C7: after a successful fetch and decode with a cache directory
configured, the raw response text is written under the same key used for the
cache read (the full request URL); a failing write is ignored and the call
still returns the decoded value. -/
theorem C7_write_after_success_best_effort {T : Type} (c : DDragonClient)
    (dir endpoint body : String) (v : T) (decode : String → Option T)
    (store : Store) (fetch : String → Except DDragonClientError String)
    (hdir : c.cache_dir = some dir)
    (hmiss : ∀ data, store (request_url c endpoint) = some data → decode data = none)
    (hfetch : fetch (request_url c endpoint) = .ok body)
    (hdecode : decode body = some v) :
    get_data c endpoint decode store fetch true =
      { result := .ok v, store := store.update (request_url c endpoint) body,
        networkCalled := true } ∧
    get_data c endpoint decode store fetch false =
      { result := .ok v, store := store, networkCalled := true } := by
  constructor
  · rw [get_data_eq_fetch_of_miss c endpoint decode store fetch true hmiss,
      fetch_and_store_success c (request_url c endpoint) body v decode store fetch
        true hfetch hdecode, hdir]
  · rw [get_data_eq_fetch_of_miss c endpoint decode store fetch false hmiss,
      fetch_and_store_success c (request_url c endpoint) body v decode store fetch
        false hfetch hdecode, hdir]

/-- Witness for C7: the concrete fetched body `7` is cached under the
request URL when the write succeeds, and the call still returns 7 when the
write fails. -/
theorem C7_witness :
    clientW.cache_dir = some ("cachedir") ∧
    fetchW (request_url clientW ("./champion.json")) = .ok ("7") ∧
    decodeW ("7") = some 7 ∧
    get_data clientW ("./champion.json") decodeW storeEmptyW fetchW true =
      { result := .ok 7,
        store := storeEmptyW.update (request_url clientW ("./champion.json")) ("7"),
        networkCalled := true } ∧
    get_data clientW ("./champion.json") decodeW storeEmptyW fetchW false =
      { result := .ok 7, store := storeEmptyW, networkCalled := true } := by
  refine ⟨rfl, rfl, by decide, ?_, ?_⟩
  · exact (C7_write_after_success_best_effort clientW ("cachedir")
      ("./champion.json") ("7") 7 decodeW storeEmptyW fetchW rfl
      (fun _ h => nomatch h) rfl (by decide)).1
  · exact (C7_write_after_success_best_effort clientW ("cachedir")
      ("./champion.json") ("7") 7 decodeW storeEmptyW fetchW rfl
      (fun _ h => nomatch h) rfl (by decide)).2

/-- C8: with no cache directory configured, every call invokes the
transport, and two calls to the same endpoint whose fetches return the same
body produce equal results. -/
theorem C8_no_cache_idempotent {T : Type} (c : DDragonClient)
    (endpoint body : String) (decode : String → Option T) (store1 store2 : Store)
    (fetch1 fetch2 : String → Except DDragonClientError String) (w1 w2 : Bool)
    (hnone : c.cache_dir = none)
    (h1 : fetch1 (request_url c endpoint) = .ok body)
    (h2 : fetch2 (request_url c endpoint) = .ok body) :
    (get_data c endpoint decode store1 fetch1 w1).networkCalled = true ∧
    (get_data c endpoint decode store2 fetch2 w2).networkCalled = true ∧
    (get_data c endpoint decode store1 fetch1 w1).result =
      (get_data c endpoint decode store2 fetch2 w2).result := by
  refine ⟨?_, ?_, ?_⟩
  · rw [get_data_eq_fetch_no_dir c endpoint decode store1 fetch1 w1 hnone]
    exact fetch_and_store_networkCalled c (request_url c endpoint) decode store1
      fetch1 w1
  · rw [get_data_eq_fetch_no_dir c endpoint decode store2 fetch2 w2 hnone]
    exact fetch_and_store_networkCalled c (request_url c endpoint) decode store2
      fetch2 w2
  · rw [get_data_eq_fetch_no_dir c endpoint decode store1 fetch1 w1 hnone,
      get_data_eq_fetch_no_dir c endpoint decode store2 fetch2 w2 hnone]
    cases hd : decode body with
    | none =>
      rw [fetch_and_store_decode_failure c (request_url c endpoint) body decode
          store1 fetch1 w1 h1 hd,
        fetch_and_store_decode_failure c (request_url c endpoint) body decode
          store2 fetch2 w2 h2 hd]
    | some v =>
      rw [fetch_and_store_success c (request_url c endpoint) body v decode store1
          fetch1 w1 h1 hd,
        fetch_and_store_success c (request_url c endpoint) body v decode store2
          fetch2 w2 h2 hd]

/-- A client identical to `clientW` but with no cache directory. -/
def clientNoCacheW : DDragonClient :=
  { version := "14.1.1", base_url := ⟨"http://h", "/"⟩, cache_dir := none }

/-- Witness for C8: two concrete cacheless calls both hit the network and
agree on the result. -/
theorem C8_witness :
    clientNoCacheW.cache_dir = none ∧
    fetchW (request_url clientNoCacheW ("./champion.json")) = .ok ("7") ∧
    (get_data clientNoCacheW ("./champion.json") decodeW storeEmptyW fetchW
      true).networkCalled = true ∧
    (get_data clientNoCacheW ("./champion.json") decodeW storeW fetchW
      false).networkCalled = true ∧
    (get_data clientNoCacheW ("./champion.json") decodeW storeEmptyW fetchW
      true).result =
      (get_data clientNoCacheW ("./champion.json") decodeW storeW fetchW
        false).result := by
  refine ⟨rfl, rfl, ?_, ?_, ?_⟩
  · exact (C8_no_cache_idempotent clientNoCacheW ("./champion.json") ("7") decodeW
      storeEmptyW storeW fetchW fetchW true false rfl rfl rfl).1
  · exact (C8_no_cache_idempotent clientNoCacheW ("./champion.json") ("7") decodeW
      storeEmptyW storeW fetchW fetchW true false rfl rfl rfl).2.1
  · exact (C8_no_cache_idempotent clientNoCacheW ("./champion.json") ("7") decodeW
      storeEmptyW storeW fetchW fetchW true false rfl rfl rfl).2.2

/-- C9: the cache write happens only after a successful decode: on every
error path of `get_data` the store is unchanged. -/
theorem C9_error_leaves_store {T : Type} (c : DDragonClient) (endpoint : String)
    (decode : String → Option T) (store : Store)
    (fetch : String → Except DDragonClientError String) (w : Bool)
    (e : DDragonClientError)
    (h : (get_data c endpoint decode store fetch w).result = .error e) :
    (get_data c endpoint decode store fetch w).store = store := by
  cases hcl : cache_lookup c (request_url c endpoint) decode store with
  | some parsed =>
    unfold get_data
    rw [hcl]
  | none =>
    have hres : (fetch_and_store c (request_url c endpoint) decode store fetch
        w).result = .error e := by
      unfold get_data at h
      rw [hcl] at h
      exact h
    have hstore := fetch_and_store_error_store c (request_url c endpoint) decode
      store fetch w e hres
    unfold get_data
    rw [hcl]
    exact hstore

/-- A transport that always fails. -/
def fetchFailW : String → Except DDragonClientError String :=
  fun _ => .error DDragonClientError.Request

/-- Witness for C9: a concrete failing fetch leaves the store unchanged. -/
theorem C9_witness :
    (get_data clientW ("./champion.json") decodeW storeEmptyW fetchFailW
      true).result = .error DDragonClientError.Request ∧
    (get_data clientW ("./champion.json") decodeW storeEmptyW fetchFailW
      true).store = storeEmptyW :=
  ⟨rfl, C9_error_leaves_store clientW ("./champion.json") decodeW storeEmptyW
    fetchFailW true DDragonClientError.Request rfl⟩
